import Mathlib

/-!
Verification of `send-email.py` (Ezbyname/ez-miclink), a fallback email
sender for voice discovery reports.  The script composes a MIME message
(text body plus an optional binary attachment) and tries two SMTP
transports in order: implicit TLS on port 465, then STARTTLS on port 587.

The embedding models the outside world (the current date, the result of
reading the report file, and the outcome of each network step) as an
`Env` oracle, and records the observable actions of a run as a list of
`Event`s.  `send_discovery_email` returns `Except String (Bool × trace)`:
an `Except.error` would mean an exception escaped the function; the
source wraps every fallible step in try/except, which the definition
transcribes, so the result is always `Except.ok`.
-/

namespace EzMiclink

/-- A calendar date, standing for Python `datetime.now()`. -/
structure Date where
  year : Nat
  month : Nat
  day : Nat
deriving Repr, DecidableEq

/-- Zero-pad a number to two digits, as `strftime` field `%m` / `%d`. -/
def pad2 (n : Nat) : String :=
  if n < 10 then "0" ++ toString n else toString n

/-- Zero-pad a number to four digits, as `strftime` field `%Y`. -/
def pad4 (n : Nat) : String :=
  if n < 10 then "000" ++ toString n
  else if n < 100 then "00" ++ toString n
  else if n < 1000 then "0" ++ toString n
  else toString n

/-- Python `datetime.now().strftime("%Y%m%d")`. -/
def fmtYmdCompact (d : Date) : String :=
  pad4 d.year ++ pad2 d.month ++ pad2 d.day

/-- Python `datetime.now().strftime("%Y-%m-%d")`. -/
def fmtYmdDashed (d : Date) : String :=
  pad4 d.year ++ "-" ++ pad2 d.month ++ "-" ++ pad2 d.day

/-- Python `os.path.basename`: the part of the path after the last slash. -/
def basename (p : String) : String :=
  (p.splitOn "/").getLastD ""

/-- The base64 alphabet. -/
def b64Alphabet : List Char :=
  "ABCDEFGHIJKLMNOPQRSTUVWXYZabcdefghijklmnopqrstuvwxyz0123456789+/".toList

/-- The base64 digit for a 6-bit value. -/
def b64Char (n : Nat) : Char := b64Alphabet.getD n 'A'

/-- Base64 encoding of a byte list (`email.encoders.encode_base64`;
line folding of the transfer encoding is not modelled). -/
def base64Encode : List Nat → String
  | [] => ""
  | [a] =>
      String.mk [b64Char (a / 4), b64Char (a % 4 * 16)] ++ "=="
  | [a, b] =>
      String.mk [b64Char (a / 4), b64Char (a % 4 * 16 + b / 16),
        b64Char (b % 16 * 4)] ++ "="
  | a :: b :: c :: rest =>
      String.mk [b64Char (a / 4), b64Char (a % 4 * 16 + b / 16),
        b64Char (b % 16 * 4 + c / 64), b64Char (c % 64)] ++ base64Encode rest

/-- The attachment part: `Content-Disposition` filename and the
base64-encoded payload set by `encoders.encode_base64`. -/
structure Attachment where
  filename : String
  payloadB64 : String
deriving Repr, DecidableEq

/-- The composed MIME message: `From`, `To`, `Subject` headers, the
plain-text body part, and the optional attachment part. -/
structure Msg where
  fromH : String
  toH : String
  subject : String
  body : String
  attachment : Option Attachment
deriving Repr, DecidableEq

/-- One observable action of a run: console output, or a network step of
an SMTP session. -/
inductive Event where
  | print (s : String)
  | smtpSSLConnect (host : String) (port : Nat)
  | smtpConnect (host : String) (port : Nat)
  | starttls
  | login (user : String) (pass : String)
  | sendMessage (m : Msg)
  | quit
deriving Repr, DecidableEq

/-- Whether an event is a network action (anything but console output). -/
def isNetB : Event → Bool
  | .print _ => false
  | _ => true

/-- The world oracle: the current date, whether the report file exists,
the result of opening and reading it (`Except.error` is a raised
exception), and for each step of each delivery attempt whether it
raises (`some` exception text) or succeeds (`none`). -/
structure Env where
  date : Date
  fileExists : Bool
  readResult : Except String (List Nat)
  a1connect : Option String
  a1login : Option String
  a1send : Option String
  a1quit : Option String
  a2connect : Option String
  a2starttls : Option String
  a2login : Option String
  a2send : Option String
  a2quit : Option String
deriving Repr

/-- The hardcoded recipient (`recipient = "yahalom.assets@gmail.com"`). -/
def recipient : String := "yahalom.assets@gmail.com"

/-- The subject line: an f-string over `strftime("%Y%m%d")`. -/
def composeSubject (d : Date) : String :=
  "🎤 Voice Effect Discovery Report - " ++ fmtYmdCompact d

/-- Body text before the `report_file` placeholder. -/
def bodyPre : String :=
  "Hi!\n\nThe voice effect discovery has completed! 🎵\n\n📊 Discovery Report: "

/-- Body text between the `report_file` and `date` placeholders. -/
def bodyMid : String := "\n📅 Date: "

/-- Body text after the `date` placeholder. -/
def bodyTail : String :=
  "\n🔍 Effects Analyzed: 10+\n\n🔥 Top Trending:\n" ++
  "1. ⭐⭐⭐⭐⭐ Anime Voice Filter (Very High Priority)\n" ++
  "2. ⭐⭐⭐⭐ Demon/Devil Voice (Easy Implementation)\n" ++
  "3. ⭐⭐⭐⭐ Auto-Tune Effect (High Demand)\n" ++
  "4. ⭐⭐⭐ Ghost Voice (Quick Win)\n" ++
  "5. ⭐⭐⭐ Baby Voice (Very Easy)\n\n" ++
  "💡 Quick Action Items:\n" ++
  "1. Review the attached report\n" ++
  "2. Select 1-2 effects to implement\n" ++
  "3. Run: /create-voice-effect [effect-name]\n\n" ++
  "📎 Full report attached with complete DSP specifications!\n\n" ++
  "Next discovery: 3 days from now\n\n" ++
  "Happy coding! 🎤✨\n\n---\nVoice Discovery Bot\nAutomated every 3 days\n"

/-- The body template `.format(report_file=os.path.basename(report_file),
date=datetime.now().strftime("%Y-%m-%d"))`. -/
def composeBody (report_file : String) (d : Date) : String :=
  bodyPre ++ basename report_file ++ bodyMid ++ fmtYmdDashed d ++ bodyTail

/-- Message composition, lines 21-68 of the source: headers, body part,
then the try/except around opening and attaching the report file.
Returns the message and the console events of the attach step (the
warning printed when reading raises). -/
def composeMsg (report_file sender_email : String) (d : Date)
    (readResult : Except String (List Nat)) : Msg × List Event :=
  let base : Msg :=
    { fromH := "Voice Discovery Bot <" ++ sender_email ++ ">"
      toH := recipient
      subject := composeSubject d
      body := composeBody report_file d
      attachment := none }
  match readResult with
  | .ok bytes =>
      let att := Attachment.mk (basename report_file) (base64Encode bytes)
      ({ base with attachment := some att }, [])
  | .error e =>
      (base, [Event.print ("Warning: Could not attach file: " ++ e)])

/-- Delivery attempt 1 (lines 73-83): `SMTP_SSL("smtp.gmail.com", 465)`,
`login`, `send_message`, `quit`, with the interleaved progress prints.
The first step that raises aborts with the exception text and the trace
so far; each step's event is recorded even when the step raises, since
the action was attempted. -/
def attempt1 (c l s q : Option String) (u p : String) (m : Msg)
    (tr : List Event) : Except (String × List Event) (List Event) :=
  let tr := tr ++ [Event.print "Connecting to Gmail SMTP server...",
    Event.smtpSSLConnect "smtp.gmail.com" 465]
  match c with
  | some e => .error (e, tr)
  | none =>
    let tr := tr ++ [Event.print "Connected! Logging in...", Event.login u p]
    match l with
    | some e => .error (e, tr)
    | none =>
      let tr := tr ++ [Event.print "Logged in! Sending email...",
        Event.sendMessage m]
      match s with
      | some e => .error (e, tr)
      | none =>
        let tr := tr ++ [Event.quit]
        match q with
        | some e => .error (e, tr)
        | none => .ok tr

/-- Delivery attempt 2 (lines 87-92): `SMTP("smtp.gmail.com", 587)`,
`starttls`, `login`, `send_message`, `quit`. -/
def attempt2 (c t l s q : Option String) (u p : String) (m : Msg)
    (tr : List Event) : Except (String × List Event) (List Event) :=
  let tr := tr ++ [Event.smtpConnect "smtp.gmail.com" 587]
  match c with
  | some e => .error (e, tr)
  | none =>
    let tr := tr ++ [Event.starttls]
    match t with
    | some e => .error (e, tr)
    | none =>
      let tr := tr ++ [Event.login u p]
      match l with
      | some e => .error (e, tr)
      | none =>
        let tr := tr ++ [Event.sendMessage m]
        match s with
        | some e => .error (e, tr)
        | none =>
          let tr := tr ++ [Event.quit]
          match q with
          | some e => .error (e, tr)
          | none => .ok tr

/-- `send_discovery_email(report_file, sender_email, sender_password)`,
lines 16-97: compose the message, try attempt 1, on any exception print
the error and try attempt 2, on any exception there print the error and
return `False`.  An `Except.error` result would be an exception escaping
the function; the nested matches transcribe the try/except structure. -/
def send_discovery_email (report_file sender_email sender_password : String)
    (env : Env) : Except String (Bool × List Event) :=
  match attempt1 env.a1connect env.a1login env.a1send env.a1quit
      sender_email sender_password
      (composeMsg report_file sender_email env.date env.readResult).1
      (composeMsg report_file sender_email env.date env.readResult).2 with
  | .ok tr =>
      .ok (true, tr ++
        [Event.print ("✅ Email sent successfully to " ++ recipient ++ "!")])
  | .error (e, tr) =>
      match attempt2 env.a2connect env.a2starttls env.a2login env.a2send
          env.a2quit sender_email sender_password
          (composeMsg report_file sender_email env.date env.readResult).1
          (tr ++
            [Event.print ("❌ Error sending email via SSL (port 465): " ++ e),
             Event.print "Trying STARTTLS (port 587)..."]) with
      | .ok tr2 =>
          .ok (true, tr2 ++
            [Event.print ("✅ Email sent successfully to " ++ recipient ++
              " via STARTTLS!")])
      | .error (e2, tr2) =>
          .ok (false, tr2 ++
            [Event.print ("❌ Error sending email via STARTTLS (port 587): "
              ++ e2)])

/-- The boolean result of `send_discovery_email` (an escaped exception,
which never happens, would abort the process, counted as failure). -/
def sendOk (report_file sender_email sender_password : String)
    (env : Env) : Bool :=
  match send_discovery_email report_file sender_email sender_password env with
  | .ok (b, _) => b
  | .error _ => false

/-- The event trace of `send_discovery_email`. -/
def sendTrace (report_file sender_email sender_password : String)
    (env : Env) : List Event :=
  match send_discovery_email report_file sender_email sender_password env with
  | .ok (_, tr) => tr
  | .error _ => []

/-- The `__main__` block, lines 99-113: check `len(sys.argv) != 4`
(the script name plus three positional arguments), check
`os.path.exists(report_file)`, call `send_discovery_email`, and exit
with 0 on success and 1 otherwise.  `argv` is the full `sys.argv`
including the script name.  Returns the exit code and the trace. -/
def mainEntry (argv : List String) (env : Env) : Nat × List Event :=
  if argv.length ≠ 4 then
    (1, [Event.print
      "Usage: send-email.py <report_file> <sender_email> <sender_password>"])
  else
    let report_file := argv.getD 1 ""
    let sender_email := argv.getD 2 ""
    let sender_password := argv.getD 3 ""
    if env.fileExists = false then
      (1, [Event.print ("❌ Report file not found: " ++ report_file)])
    else
      (if sendOk report_file sender_email sender_password env then 0 else 1,
       sendTrace report_file sender_email sender_password env)

/-- Attempt 1 succeeds exactly when none of its four steps raises. -/
def a1ok (env : Env) : Bool :=
  env.a1connect.isNone && env.a1login.isNone &&
  env.a1send.isNone && env.a1quit.isNone

/-- Attempt 2 succeeds exactly when none of its five steps raises. -/
def a2ok (env : Env) : Bool :=
  env.a2connect.isNone && env.a2starttls.isNone &&
  env.a2login.isNone && env.a2send.isNone && env.a2quit.isNone

/-- The trace accumulated by an attempt, whether it raised or not. -/
def runTrace (r : Except (String × List Event) (List Event)) : List Event :=
  match r with
  | .ok tr => tr
  | .error (_, tr) => tr

/-- Number of implicit-TLS connection attempts (attempt-1 invocations). -/
def cnt465 (tr : List Event) : Nat :=
  tr.countP fun e => match e with
    | .smtpSSLConnect _ _ => true
    | _ => false

/-- Number of plaintext connection attempts (attempt-2 invocations). -/
def cnt587 (tr : List Event) : Nat :=
  tr.countP fun e => match e with
    | .smtpConnect _ _ => true
    | _ => false

/-- Number of message transmissions in a trace. -/
def cntSend (tr : List Event) : Nat :=
  tr.countP fun e => match e with
    | .sendMessage _ => true
    | _ => false

/-- Whether a connection event targets the fixed relay hostname
(non-connection events pass vacuously). -/
def hostOkB : Event → Bool
  | .smtpSSLConnect h _ => h == "smtp.gmail.com"
  | .smtpConnect h _ => h == "smtp.gmail.com"
  | _ => true

/-- Whether a transmission event carries exactly the message `m0`
(non-transmission events pass vacuously). -/
def msgOkB (m0 : Msg) : Event → Bool
  | .sendMessage m => decide (m = m0)
  | _ => true

/-- Erase the password field of login events, keeping everything else. -/
def scrubPass : Event → Event
  | .login u _ => .login u ""
  | e => e

/-- The messages transmitted in a trace, in order. -/
def sentMsgs (tr : List Event) : List Msg :=
  tr.filterMap fun e => match e with
    | .sendMessage m => some m
    | _ => none

/-! ### Helper lemmas about the two delivery attempts -/

/-- Attempt 1 returns without an exception exactly when none of its four
steps raises. -/
theorem attempt1_isOk (c l s q : Option String) (u p : String) (m : Msg)
    (tr : List Event) :
    (attempt1 c l s q u p m tr).isOk =
      (c.isNone && l.isNone && s.isNone && q.isNone) := by
  cases c <;> cases l <;> cases s <;> cases q <;> rfl

/-- Attempt 2 returns without an exception exactly when none of its five
steps raises. -/
theorem attempt2_isOk (c t l s q : Option String) (u p : String) (m : Msg)
    (tr : List Event) :
    (attempt2 c t l s q u p m tr).isOk =
      (c.isNone && t.isNone && l.isNone && s.isNone && q.isNone) := by
  cases c <;> cases t <;> cases l <;> cases s <;> cases q <;> rfl

/-- Attempt 1 records exactly one implicit-TLS connection attempt. -/
theorem attempt1_cnt465 (c l s q : Option String) (u p : String) (m : Msg)
    (tr : List Event) :
    cnt465 (runTrace (attempt1 c l s q u p m tr)) = cnt465 tr + 1 := by
  cases c <;> cases l <;> cases s <;> cases q <;>
    simp [attempt1, runTrace, cnt465, List.countP_append, List.countP_cons]

/-- Attempt 1 records no plaintext connection attempt. -/
theorem attempt1_cnt587 (c l s q : Option String) (u p : String) (m : Msg)
    (tr : List Event) :
    cnt587 (runTrace (attempt1 c l s q u p m tr)) = cnt587 tr := by
  cases c <;> cases l <;> cases s <;> cases q <;>
    simp [attempt1, runTrace, cnt587, List.countP_append, List.countP_cons]

/-- Attempt 2 records no implicit-TLS connection attempt. -/
theorem attempt2_cnt465 (c t l s q : Option String) (u p : String) (m : Msg)
    (tr : List Event) :
    cnt465 (runTrace (attempt2 c t l s q u p m tr)) = cnt465 tr := by
  cases c <;> cases t <;> cases l <;> cases s <;> cases q <;>
    simp [attempt2, runTrace, cnt465, List.countP_append, List.countP_cons]

/-- Attempt 2 records exactly one plaintext connection attempt. -/
theorem attempt2_cnt587 (c t l s q : Option String) (u p : String) (m : Msg)
    (tr : List Event) :
    cnt587 (runTrace (attempt2 c t l s q u p m tr)) = cnt587 tr + 1 := by
  cases c <;> cases t <;> cases l <;> cases s <;> cases q <;>
    simp [attempt2, runTrace, cnt587, List.countP_append, List.countP_cons]

/-- Attempt 1 transmits the message at most once. -/
theorem attempt1_cntSend (c l s q : Option String) (u p : String) (m : Msg)
    (tr : List Event) :
    cntSend (runTrace (attempt1 c l s q u p m tr)) ≤ cntSend tr + 1 := by
  cases c <;> cases l <;> cases s <;> cases q <;>
    simp [attempt1, runTrace, cntSend, List.countP_append, List.countP_cons]

/-- Attempt 2 transmits the message at most once. -/
theorem attempt2_cntSend (c t l s q : Option String) (u p : String) (m : Msg)
    (tr : List Event) :
    cntSend (runTrace (attempt2 c t l s q u p m tr)) ≤ cntSend tr + 1 := by
  cases c <;> cases t <;> cases l <;> cases s <;> cases q <;>
    simp [attempt2, runTrace, cntSend, List.countP_append, List.countP_cons]

/-- Every event attempt 1 appends to the trace satisfies a predicate
that holds for console output, the fixed connection target, the given
login, the given message transmission, and quit. -/
theorem attempt1_all (c l s q : Option String) (u p : String) (m : Msg)
    (tr : List Event) (P : Event → Bool)
    (htr : tr.all P = true)
    (h1 : ∀ x, P (.print x) = true)
    (h2 : P (.smtpSSLConnect "smtp.gmail.com" 465) = true)
    (h3 : P (.login u p) = true)
    (h4 : P (.sendMessage m) = true)
    (h5 : P .quit = true) :
    (runTrace (attempt1 c l s q u p m tr)).all P = true := by
  cases c <;> cases l <;> cases s <;> cases q <;>
    simp [attempt1, runTrace, List.all_append, htr, h1, h2, h3, h4, h5]

/-- Every event attempt 2 appends to the trace satisfies a predicate
that holds for the fixed connection target, STARTTLS, the given login,
the given message transmission, and quit. -/
theorem attempt2_all (c t l s q : Option String) (u p : String) (m : Msg)
    (tr : List Event) (P : Event → Bool)
    (htr : tr.all P = true)
    (h2 : P (.smtpConnect "smtp.gmail.com" 587) = true)
    (h2b : P .starttls = true)
    (h3 : P (.login u p) = true)
    (h4 : P (.sendMessage m) = true)
    (h5 : P .quit = true) :
    (runTrace (attempt2 c t l s q u p m tr)).all P = true := by
  cases c <;> cases t <;> cases l <;> cases s <;> cases q <;>
    simp [attempt2, runTrace, List.all_append, htr, h2, h2b, h3, h4, h5]

/-- The incoming trace is a prefix of what either outcome of attempt 1
leaves behind, so its members persist. -/
theorem attempt1_mem (c l s q : Option String) (u p : String) (m : Msg)
    (tr : List Event) (x : Event) (hx : x ∈ tr) :
    x ∈ runTrace (attempt1 c l s q u p m tr) := by
  cases c <;> cases l <;> cases s <;> cases q <;>
    simp [attempt1, runTrace, List.mem_append, hx]

/-- The incoming trace is a prefix of what either outcome of attempt 2
leaves behind, so its members persist. -/
theorem attempt2_mem (c t l s q : Option String) (u p : String) (m : Msg)
    (tr : List Event) (x : Event) (hx : x ∈ tr) :
    x ∈ runTrace (attempt2 c t l s q u p m tr) := by
  cases c <;> cases t <;> cases l <;> cases s <;> cases q <;>
    simp [attempt2, runTrace, List.mem_append, hx]

/-! ### Helper lemmas about message composition -/

/-- The To header is the hardcoded recipient, whatever the inputs. -/
theorem composeMsg_toH (rf se : String) (d : Date)
    (rr : Except String (List Nat)) :
    (composeMsg rf se d rr).1.toH = "yahalom.assets@gmail.com" := by
  cases rr <;> rfl

/-- The subject is the dated template, whatever the read outcome. -/
theorem composeMsg_subject (rf se : String) (d : Date)
    (rr : Except String (List Nat)) :
    (composeMsg rf se d rr).1.subject = composeSubject d := by
  cases rr <;> rfl

/-- The body is the formatted template, whatever the read outcome. -/
theorem composeMsg_body (rf se : String) (d : Date)
    (rr : Except String (List Nat)) :
    (composeMsg rf se d rr).1.body = composeBody rf d := by
  cases rr <;> rfl

/-- Composition performs no implicit-TLS connection. -/
theorem composeTrace_cnt465 (rf se : String) (d : Date)
    (rr : Except String (List Nat)) :
    cnt465 (composeMsg rf se d rr).2 = 0 := by
  cases rr <;> rfl

/-- Composition performs no plaintext connection. -/
theorem composeTrace_cnt587 (rf se : String) (d : Date)
    (rr : Except String (List Nat)) :
    cnt587 (composeMsg rf se d rr).2 = 0 := by
  cases rr <;> rfl

/-- Composition transmits nothing. -/
theorem composeTrace_cntSend (rf se : String) (d : Date)
    (rr : Except String (List Nat)) :
    cntSend (composeMsg rf se d rr).2 = 0 := by
  cases rr <;> rfl

/-- Composition emits only console output. -/
theorem composeTrace_all (rf se : String) (d : Date)
    (rr : Except String (List Nat)) (P : Event → Bool)
    (hp : ∀ x, P (.print x) = true) :
    ((composeMsg rf se d rr).2).all P = true := by
  cases rr <;> simp [composeMsg, hp]

/-- The overall boolean result of `send_discovery_email` is: attempt 1
raised nothing, or attempt 2 raised nothing. -/
theorem sendOk_eq (rf se sp : String) (env : Env) :
    sendOk rf se sp env = (a1ok env || a2ok env) := by
  obtain ⟨d, fe, rr, c1, l1, s1, q1, c2, t2, l2, s2, q2⟩ := env
  cases c1 <;> cases l1 <;> cases s1 <;> cases q1 <;>
    cases c2 <;> cases t2 <;> cases l2 <;> cases s2 <;> cases q2 <;> rfl

/-- Every event of a full `send_discovery_email` trace satisfies a
predicate that holds for console output, the two fixed connection
targets, STARTTLS, the given login, transmission of the composed
message, and quit. -/
theorem sendTrace_all (rf se sp : String) (env : Env) (P : Event → Bool)
    (h1p : ∀ x, P (.print x) = true)
    (h2 : P (.smtpSSLConnect "smtp.gmail.com" 465) = true)
    (h2a : P (.smtpConnect "smtp.gmail.com" 587) = true)
    (h2b : P .starttls = true)
    (h3 : P (.login se sp) = true)
    (h4 : P (.sendMessage (composeMsg rf se env.date env.readResult).1) = true)
    (h5 : P .quit = true) :
    (sendTrace rf se sp env).all P = true := by
  unfold sendTrace send_discovery_email
  cases h1 : attempt1 env.a1connect env.a1login env.a1send env.a1quit se sp
      (composeMsg rf se env.date env.readResult).1
      (composeMsg rf se env.date env.readResult).2 with
  | ok tr =>
    have ha := attempt1_all env.a1connect env.a1login env.a1send env.a1quit se sp
      (composeMsg rf se env.date env.readResult).1
      (composeMsg rf se env.date env.readResult).2 P
      (composeTrace_all rf se env.date env.readResult P h1p) h1p h2 h3 h4 h5
    rw [h1] at ha
    simp only [runTrace] at ha
    simp [List.all_append, ha, h1p]
  | error pr =>
    obtain ⟨e, tr⟩ := pr
    dsimp only
    have ha := attempt1_all env.a1connect env.a1login env.a1send env.a1quit se sp
      (composeMsg rf se env.date env.readResult).1
      (composeMsg rf se env.date env.readResult).2 P
      (composeTrace_all rf se env.date env.readResult P h1p) h1p h2 h3 h4 h5
    rw [h1] at ha
    simp only [runTrace] at ha
    cases h2e : attempt2 env.a2connect env.a2starttls env.a2login env.a2send
        env.a2quit se sp
        (composeMsg rf se env.date env.readResult).1
        (tr ++ [Event.print ("❌ Error sending email via SSL (port 465): " ++ e),
                Event.print "Trying STARTTLS (port 587)..."]) with
    | ok tr2 =>
      have hb := attempt2_all env.a2connect env.a2starttls env.a2login env.a2send
        env.a2quit se sp
        (composeMsg rf se env.date env.readResult).1
        (tr ++ [Event.print ("❌ Error sending email via SSL (port 465): " ++ e),
                Event.print "Trying STARTTLS (port 587)..."]) P
        (by simp [List.all_append, ha, h1p]) h2a h2b h3 h4 h5
      rw [h2e] at hb
      simp only [runTrace] at hb
      simp [List.all_append, hb, h1p]
    | error pr2 =>
      obtain ⟨e2, tr2⟩ := pr2
      have hb := attempt2_all env.a2connect env.a2starttls env.a2login env.a2send
        env.a2quit se sp
        (composeMsg rf se env.date env.readResult).1
        (tr ++ [Event.print ("❌ Error sending email via SSL (port 465): " ++ e),
                Event.print "Trying STARTTLS (port 587)..."]) P
        (by simp [List.all_append, ha, h1p]) h2a h2b h3 h4 h5
      rw [h2e] at hb
      simp only [runTrace] at hb
      simp [List.all_append, hb, h1p]

/-- `cnt465` distributes over trace concatenation. -/
theorem cnt465_append (t1 t2 : List Event) :
    cnt465 (t1 ++ t2) = cnt465 t1 + cnt465 t2 :=
  List.countP_append _ _ _

/-- `cnt587` distributes over trace concatenation. -/
theorem cnt587_append (t1 t2 : List Event) :
    cnt587 (t1 ++ t2) = cnt587 t1 + cnt587 t2 :=
  List.countP_append _ _ _

/-- `cntSend` distributes over trace concatenation. -/
theorem cntSend_append (t1 t2 : List Event) :
    cntSend (t1 ++ t2) = cntSend t1 + cntSend t2 :=
  List.countP_append _ _ _

/-- A single console line is no connection attempt. -/
theorem cnt465_print (s : String) : cnt465 [Event.print s] = 0 := rfl

/-- Two console lines are no connection attempt. -/
theorem cnt465_print2 (s1 s2 : String) :
    cnt465 [Event.print s1, Event.print s2] = 0 := rfl

/-- A single console line is no connection attempt. -/
theorem cnt587_print (s : String) : cnt587 [Event.print s] = 0 := rfl

/-- Two console lines are no connection attempt. -/
theorem cnt587_print2 (s1 s2 : String) :
    cnt587 [Event.print s1, Event.print s2] = 0 := rfl

/-- A single console line transmits nothing. -/
theorem cntSend_print (s : String) : cntSend [Event.print s] = 0 := rfl

/-- Two console lines transmit nothing. -/
theorem cntSend_print2 (s1 s2 : String) :
    cntSend [Event.print s1, Event.print s2] = 0 := rfl

/-- Whether attempt 1 succeeds is read off the environment. -/
theorem a1ok_eq (env : Env) (u p : String) (m : Msg) (tr : List Event) :
    a1ok env = (attempt1 env.a1connect env.a1login env.a1send env.a1quit
      u p m tr).isOk := by
  rw [attempt1_isOk]; rfl

/-- Whether attempt 2 succeeds is read off the environment. -/
theorem a2ok_eq (env : Env) (u p : String) (m : Msg) (tr : List Event) :
    a2ok env = (attempt2 env.a2connect env.a2starttls env.a2login env.a2send
      env.a2quit u p m tr).isOk := by
  rw [attempt2_isOk]; rfl

/-- Every run of `send_discovery_email` opens the implicit-TLS
connection exactly once: attempt 1 always runs, and runs once. -/
theorem sendTrace_cnt465 (rf se sp : String) (env : Env) :
    cnt465 (sendTrace rf se sp env) = 1 := by
  unfold sendTrace send_discovery_email
  cases h1 : attempt1 env.a1connect env.a1login env.a1send env.a1quit se sp
      (composeMsg rf se env.date env.readResult).1
      (composeMsg rf se env.date env.readResult).2 with
  | ok tr =>
    have ha := attempt1_cnt465 env.a1connect env.a1login env.a1send env.a1quit
      se sp (composeMsg rf se env.date env.readResult).1
      (composeMsg rf se env.date env.readResult).2
    rw [h1] at ha
    simp only [runTrace] at ha
    rw [composeTrace_cnt465] at ha
    dsimp only
    rw [cnt465_append, cnt465_print, ha]
  | error pr =>
    obtain ⟨e, tr⟩ := pr
    have ha := attempt1_cnt465 env.a1connect env.a1login env.a1send env.a1quit
      se sp (composeMsg rf se env.date env.readResult).1
      (composeMsg rf se env.date env.readResult).2
    rw [h1] at ha
    simp only [runTrace] at ha
    rw [composeTrace_cnt465] at ha
    dsimp only
    cases h2 : attempt2 env.a2connect env.a2starttls env.a2login env.a2send
        env.a2quit se sp
        (composeMsg rf se env.date env.readResult).1
        (tr ++ [Event.print ("❌ Error sending email via SSL (port 465): " ++ e),
                Event.print "Trying STARTTLS (port 587)..."]) with
    | ok tr2 =>
      have hb := attempt2_cnt465 env.a2connect env.a2starttls env.a2login
        env.a2send env.a2quit se sp
        (composeMsg rf se env.date env.readResult).1
        (tr ++ [Event.print ("❌ Error sending email via SSL (port 465): " ++ e),
                Event.print "Trying STARTTLS (port 587)..."])
      rw [h2] at hb
      simp only [runTrace] at hb
      rw [cnt465_append, cnt465_print2, ha] at hb
      rw [cnt465_append, cnt465_print, hb]
    | error pr2 =>
      obtain ⟨e2, tr2⟩ := pr2
      have hb := attempt2_cnt465 env.a2connect env.a2starttls env.a2login
        env.a2send env.a2quit se sp
        (composeMsg rf se env.date env.readResult).1
        (tr ++ [Event.print ("❌ Error sending email via SSL (port 465): " ++ e),
                Event.print "Trying STARTTLS (port 587)..."])
      rw [h2] at hb
      simp only [runTrace] at hb
      rw [cnt465_append, cnt465_print2, ha] at hb
      rw [cnt465_append, cnt465_print, hb]

/-- A run opens the plaintext connection once when attempt 1 raised
somewhere, and not at all when attempt 1 succeeded. -/
theorem sendTrace_cnt587 (rf se sp : String) (env : Env) :
    cnt587 (sendTrace rf se sp env) = (if a1ok env = true then 0 else 1) := by
  have hk := a1ok_eq env se sp
    (composeMsg rf se env.date env.readResult).1
    (composeMsg rf se env.date env.readResult).2
  unfold sendTrace send_discovery_email
  cases h1 : attempt1 env.a1connect env.a1login env.a1send env.a1quit se sp
      (composeMsg rf se env.date env.readResult).1
      (composeMsg rf se env.date env.readResult).2 with
  | ok tr =>
    rw [h1] at hk
    simp only [Except.isOk] at hk
    have ha := attempt1_cnt587 env.a1connect env.a1login env.a1send env.a1quit
      se sp (composeMsg rf se env.date env.readResult).1
      (composeMsg rf se env.date env.readResult).2
    rw [h1] at ha
    simp only [runTrace] at ha
    rw [composeTrace_cnt587] at ha
    dsimp only
    rw [cnt587_append, cnt587_print, ha, hk]
    simp [Except.toBool]
  | error pr =>
    obtain ⟨e, tr⟩ := pr
    rw [h1] at hk
    simp only [Except.isOk] at hk
    have ha := attempt1_cnt587 env.a1connect env.a1login env.a1send env.a1quit
      se sp (composeMsg rf se env.date env.readResult).1
      (composeMsg rf se env.date env.readResult).2
    rw [h1] at ha
    simp only [runTrace] at ha
    rw [composeTrace_cnt587] at ha
    dsimp only
    cases h2 : attempt2 env.a2connect env.a2starttls env.a2login env.a2send
        env.a2quit se sp
        (composeMsg rf se env.date env.readResult).1
        (tr ++ [Event.print ("❌ Error sending email via SSL (port 465): " ++ e),
                Event.print "Trying STARTTLS (port 587)..."]) with
    | ok tr2 =>
      have hb := attempt2_cnt587 env.a2connect env.a2starttls env.a2login
        env.a2send env.a2quit se sp
        (composeMsg rf se env.date env.readResult).1
        (tr ++ [Event.print ("❌ Error sending email via SSL (port 465): " ++ e),
                Event.print "Trying STARTTLS (port 587)..."])
      rw [h2] at hb
      simp only [runTrace] at hb
      rw [cnt587_append, cnt587_print2, ha] at hb
      rw [cnt587_append, cnt587_print, hb, hk]
      simp [Except.toBool]
    | error pr2 =>
      obtain ⟨e2, tr2⟩ := pr2
      have hb := attempt2_cnt587 env.a2connect env.a2starttls env.a2login
        env.a2send env.a2quit se sp
        (composeMsg rf se env.date env.readResult).1
        (tr ++ [Event.print ("❌ Error sending email via SSL (port 465): " ++ e),
                Event.print "Trying STARTTLS (port 587)..."])
      rw [h2] at hb
      simp only [runTrace] at hb
      rw [cnt587_append, cnt587_print2, ha] at hb
      rw [cnt587_append, cnt587_print, hb, hk]
      simp [Except.toBool]

/-- A run transmits the message at most twice (once per attempt). -/
theorem sendTrace_cntSend_le (rf se sp : String) (env : Env) :
    cntSend (sendTrace rf se sp env) ≤ 2 := by
  unfold sendTrace send_discovery_email
  cases h1 : attempt1 env.a1connect env.a1login env.a1send env.a1quit se sp
      (composeMsg rf se env.date env.readResult).1
      (composeMsg rf se env.date env.readResult).2 with
  | ok tr =>
    have ha := attempt1_cntSend env.a1connect env.a1login env.a1send env.a1quit
      se sp (composeMsg rf se env.date env.readResult).1
      (composeMsg rf se env.date env.readResult).2
    rw [h1] at ha
    simp only [runTrace] at ha
    rw [composeTrace_cntSend] at ha
    dsimp only
    rw [cntSend_append, cntSend_print]
    omega
  | error pr =>
    obtain ⟨e, tr⟩ := pr
    have ha := attempt1_cntSend env.a1connect env.a1login env.a1send env.a1quit
      se sp (composeMsg rf se env.date env.readResult).1
      (composeMsg rf se env.date env.readResult).2
    rw [h1] at ha
    simp only [runTrace] at ha
    rw [composeTrace_cntSend] at ha
    dsimp only
    cases h2 : attempt2 env.a2connect env.a2starttls env.a2login env.a2send
        env.a2quit se sp
        (composeMsg rf se env.date env.readResult).1
        (tr ++ [Event.print ("❌ Error sending email via SSL (port 465): " ++ e),
                Event.print "Trying STARTTLS (port 587)..."]) with
    | ok tr2 =>
      have hb := attempt2_cntSend env.a2connect env.a2starttls env.a2login
        env.a2send env.a2quit se sp
        (composeMsg rf se env.date env.readResult).1
        (tr ++ [Event.print ("❌ Error sending email via SSL (port 465): " ++ e),
                Event.print "Trying STARTTLS (port 587)..."])
      rw [h2] at hb
      simp only [runTrace] at hb
      rw [cntSend_append, cntSend_print2] at hb
      dsimp only
      rw [cntSend_append, cntSend_print]
      omega
    | error pr2 =>
      obtain ⟨e2, tr2⟩ := pr2
      have hb := attempt2_cntSend env.a2connect env.a2starttls env.a2login
        env.a2send env.a2quit se sp
        (composeMsg rf se env.date env.readResult).1
        (tr ++ [Event.print ("❌ Error sending email via SSL (port 465): " ++ e),
                Event.print "Trying STARTTLS (port 587)..."])
      rw [h2] at hb
      simp only [runTrace] at hb
      rw [cntSend_append, cntSend_print2] at hb
      dsimp only
      rw [cntSend_append, cntSend_print]
      omega

/-- Events recorded during composition persist into the full trace. -/
theorem sendTrace_mem_compose (rf se sp : String) (env : Env) (x : Event)
    (hx : x ∈ (composeMsg rf se env.date env.readResult).2) :
    x ∈ sendTrace rf se sp env := by
  unfold sendTrace send_discovery_email
  cases h1 : attempt1 env.a1connect env.a1login env.a1send env.a1quit se sp
      (composeMsg rf se env.date env.readResult).1
      (composeMsg rf se env.date env.readResult).2 with
  | ok tr =>
    have hm := attempt1_mem env.a1connect env.a1login env.a1send env.a1quit
      se sp (composeMsg rf se env.date env.readResult).1
      (composeMsg rf se env.date env.readResult).2 x hx
    rw [h1] at hm
    simp only [runTrace] at hm
    dsimp only
    exact List.mem_append_left _ hm
  | error pr =>
    obtain ⟨e, tr⟩ := pr
    have hm := attempt1_mem env.a1connect env.a1login env.a1send env.a1quit
      se sp (composeMsg rf se env.date env.readResult).1
      (composeMsg rf se env.date env.readResult).2 x hx
    rw [h1] at hm
    simp only [runTrace] at hm
    dsimp only
    cases h2 : attempt2 env.a2connect env.a2starttls env.a2login env.a2send
        env.a2quit se sp
        (composeMsg rf se env.date env.readResult).1
        (tr ++ [Event.print ("❌ Error sending email via SSL (port 465): " ++ e),
                Event.print "Trying STARTTLS (port 587)..."]) with
    | ok tr2 =>
      have hm2 := attempt2_mem env.a2connect env.a2starttls env.a2login
        env.a2send env.a2quit se sp
        (composeMsg rf se env.date env.readResult).1
        (tr ++ [Event.print ("❌ Error sending email via SSL (port 465): " ++ e),
                Event.print "Trying STARTTLS (port 587)..."]) x
        (List.mem_append_left _ hm)
      rw [h2] at hm2
      simp only [runTrace] at hm2
      exact List.mem_append_left _ hm2
    | error pr2 =>
      obtain ⟨e2, tr2⟩ := pr2
      have hm2 := attempt2_mem env.a2connect env.a2starttls env.a2login
        env.a2send env.a2quit se sp
        (composeMsg rf se env.date env.readResult).1
        (tr ++ [Event.print ("❌ Error sending email via SSL (port 465): " ++ e),
                Event.print "Trying STARTTLS (port 587)..."]) x
        (List.mem_append_left _ hm)
      rw [h2] at hm2
      simp only [runTrace] at hm2
      exact List.mem_append_left _ hm2

/-! ### Password noninterference machinery -/

/-- Erase login passwords from an attempt outcome's trace. -/
def scrubRun : Except (String × List Event) (List Event) →
    Except (String × List Event) (List Event)
  | .ok tr => .ok (tr.map scrubPass)
  | .error (e, tr) => .error (e, tr.map scrubPass)

/-- Up to the password field of login events, attempt 1 behaves the same
for any two passwords: same outcome, same error text, same trace. -/
theorem attempt1_scrub (c l s q : Option String) (u p1 p2 : String) (m : Msg)
    (tr1 tr2 : List Event) (htr : tr1.map scrubPass = tr2.map scrubPass) :
    scrubRun (attempt1 c l s q u p1 m tr1) =
      scrubRun (attempt1 c l s q u p2 m tr2) := by
  cases c <;> cases l <;> cases s <;> cases q <;>
    simp [attempt1, scrubRun, List.map_append, htr, scrubPass]

/-- Up to the password field of login events, attempt 2 behaves the same
for any two passwords: same outcome, same error text, same trace. -/
theorem attempt2_scrub (c t l s q : Option String) (u p1 p2 : String) (m : Msg)
    (tr1 tr2 : List Event) (htr : tr1.map scrubPass = tr2.map scrubPass) :
    scrubRun (attempt2 c t l s q u p1 m tr1) =
      scrubRun (attempt2 c t l s q u p2 m tr2) := by
  cases c <;> cases t <;> cases l <;> cases s <;> cases q <;>
    simp [attempt2, scrubRun, List.map_append, htr, scrubPass]

/-- Erasing passwords does not change which messages were transmitted. -/
theorem sentMsgs_scrub (tr : List Event) :
    sentMsgs (tr.map scrubPass) = sentMsgs tr := by
  induction tr with
  | nil => rfl
  | cons x tr ih => cases x <;> simp [sentMsgs, scrubPass, List.filterMap_cons] at ih ⊢ <;>
      exact ih

/-- The run of `send_discovery_email` depends on the password only
through the password field of the recorded login events: the boolean
result is unchanged, and the traces agree after erasing that field. -/
theorem send_scrub (rf se p1 p2 : String) (env : Env) :
    sendOk rf se p1 env = sendOk rf se p2 env ∧
    (sendTrace rf se p1 env).map scrubPass =
      (sendTrace rf se p2 env).map scrubPass := by
  have hs1 := attempt1_scrub env.a1connect env.a1login env.a1send env.a1quit
    se p1 p2 (composeMsg rf se env.date env.readResult).1
    (composeMsg rf se env.date env.readResult).2
    (composeMsg rf se env.date env.readResult).2 rfl
  unfold sendOk sendTrace send_discovery_email
  cases h1 : attempt1 env.a1connect env.a1login env.a1send env.a1quit se p1
      (composeMsg rf se env.date env.readResult).1
      (composeMsg rf se env.date env.readResult).2 with
  | ok tr =>
    cases h1b : attempt1 env.a1connect env.a1login env.a1send env.a1quit se p2
        (composeMsg rf se env.date env.readResult).1
        (composeMsg rf se env.date env.readResult).2 with
    | ok trb =>
      rw [h1, h1b] at hs1
      simp only [scrubRun, Except.ok.injEq] at hs1
      dsimp only
      exact ⟨rfl, by simp [List.map_append, hs1, scrubPass]⟩
    | error prb =>
      obtain ⟨eb, trb⟩ := prb
      rw [h1, h1b] at hs1
      simp [scrubRun] at hs1
  | error pr =>
    obtain ⟨e, tr⟩ := pr
    cases h1b : attempt1 env.a1connect env.a1login env.a1send env.a1quit se p2
        (composeMsg rf se env.date env.readResult).1
        (composeMsg rf se env.date env.readResult).2 with
    | ok trb =>
      rw [h1, h1b] at hs1
      simp [scrubRun] at hs1
    | error prb =>
      obtain ⟨eb, trb⟩ := prb
      rw [h1, h1b] at hs1
      simp only [scrubRun, Except.error.injEq, Prod.mk.injEq] at hs1
      obtain ⟨he, htr⟩ := hs1
      subst he
      have hs2 := attempt2_scrub env.a2connect env.a2starttls env.a2login
        env.a2send env.a2quit se p1 p2
        (composeMsg rf se env.date env.readResult).1
        (tr ++ [Event.print ("❌ Error sending email via SSL (port 465): " ++ e),
                Event.print "Trying STARTTLS (port 587)..."])
        (trb ++ [Event.print ("❌ Error sending email via SSL (port 465): " ++ e),
                 Event.print "Trying STARTTLS (port 587)..."])
        (by simp [List.map_append, htr, scrubPass])
      dsimp only
      cases h2 : attempt2 env.a2connect env.a2starttls env.a2login env.a2send
          env.a2quit se p1
          (composeMsg rf se env.date env.readResult).1
          (tr ++ [Event.print ("❌ Error sending email via SSL (port 465): " ++ e),
                  Event.print "Trying STARTTLS (port 587)..."]) with
      | ok tr2 =>
        cases h2b : attempt2 env.a2connect env.a2starttls env.a2login env.a2send
            env.a2quit se p2
            (composeMsg rf se env.date env.readResult).1
            (trb ++ [Event.print ("❌ Error sending email via SSL (port 465): " ++ e),
                     Event.print "Trying STARTTLS (port 587)..."]) with
        | ok tr2b =>
          rw [h2, h2b] at hs2
          simp only [scrubRun, Except.ok.injEq] at hs2
          exact ⟨rfl, by simp [List.map_append, hs2, scrubPass]⟩
        | error pr2b =>
          obtain ⟨e2b, tr2b⟩ := pr2b
          rw [h2, h2b] at hs2
          simp [scrubRun] at hs2
      | error pr2 =>
        obtain ⟨e2, tr2⟩ := pr2
        cases h2b : attempt2 env.a2connect env.a2starttls env.a2login env.a2send
            env.a2quit se p2
            (composeMsg rf se env.date env.readResult).1
            (trb ++ [Event.print ("❌ Error sending email via SSL (port 465): " ++ e),
                     Event.print "Trying STARTTLS (port 587)..."]) with
        | ok tr2b =>
          rw [h2, h2b] at hs2
          simp [scrubRun] at hs2
        | error pr2b =>
          obtain ⟨e2b, tr2b⟩ := pr2b
          rw [h2, h2b] at hs2
          simp only [scrubRun, Except.error.injEq, Prod.mk.injEq] at hs2
          obtain ⟨he2, htr2⟩ := hs2
          subst he2
          exact ⟨rfl, by simp [List.map_append, htr2, scrubPass]⟩

/-! ### Sample environments for concrete witnesses -/

/-- A sample run environment whose report file is missing. -/
def envNoFile : Env :=
  ⟨⟨2026, 10, 12⟩, false, .ok [], none, none, none, none, none, none, none,
    none, none⟩

/-- A sample run environment whose report file exists but cannot be read. -/
def envReadErr : Env :=
  ⟨⟨2026, 10, 12⟩, true, .error "denied", none, none, none, none, none, none,
    none, none, none⟩

/-! ### The claims -/

/-- C1: if the report file path does not exist, the program prints the
not-found message naming the path, exits with code 1, and its trace
contains no network event whatsoever (no SMTP connect, login, or send),
for every choice of the other two CLI arguments. -/
theorem missing_report_no_network (prog rf se sp : String) (env : Env)
    (h : env.fileExists = false) :
    (mainEntry [prog, rf, se, sp] env).1 = 1 ∧
    Event.print ("❌ Report file not found: " ++ rf) ∈
      (mainEntry [prog, rf, se, sp] env).2 ∧
    (mainEntry [prog, rf, se, sp] env).2.all (fun e => !isNetB e) = true := by
  unfold mainEntry
  simp [h, isNetB]

/-- Witness for C1: a concrete run with a missing report file. -/
theorem missing_report_no_network_witness :
    envNoFile.fileExists = false ∧
    ((mainEntry ["send-email.py", "report.md", "bot@gmail.com", "pw"]
        envNoFile).1 = 1 ∧
     Event.print ("❌ Report file not found: " ++ "report.md") ∈
       (mainEntry ["send-email.py", "report.md", "bot@gmail.com", "pw"]
         envNoFile).2 ∧
     (mainEntry ["send-email.py", "report.md", "bot@gmail.com", "pw"]
        envNoFile).2.all (fun e => !isNetB e) = true) :=
  ⟨rfl, missing_report_no_network "send-email.py" "report.md" "bot@gmail.com"
    "pw" envNoFile rfl⟩

/-- C2: the exit code is always 0 or 1, and it is 0 exactly when the
argument count is right (four entries of `sys.argv`, i.e. three
positional arguments), the report file exists, and at least one of the
two delivery attempts succeeds. -/
theorem exit_code_zero_iff_delivered (argv : List String) (env : Env) :
    ((mainEntry argv env).1 = 0 ∨ (mainEntry argv env).1 = 1) ∧
    ((mainEntry argv env).1 = 0 ↔
      argv.length = 4 ∧ env.fileExists = true ∧
        (a1ok env || a2ok env) = true) := by
  unfold mainEntry
  by_cases hl : argv.length = 4
  · by_cases hf : env.fileExists = false
    · simp [hl, hf]
    · have hf2 : env.fileExists = true := by
        cases hfe : env.fileExists
        · exact absurd hfe hf
        · rfl
      cases hab : (a1ok env || a2ok env)
      · simp [hl, hf2, sendOk_eq, hab]
      · simp [hl, hf2, sendOk_eq, hab]
  · simp [hl]

/-- C3: attempt 1 is invoked exactly once in every run; attempt 2 is
invoked exactly once when attempt 1 raised anywhere (connect, login,
send, or quit), and never when attempt 1 succeeded; nothing further ever
runs after attempt 2. -/
theorem fallback_invoked_iff_attempt1_raises (rf se sp : String)
    (env : Env) :
    cnt465 (sendTrace rf se sp env) = 1 ∧
    cnt587 (sendTrace rf se sp env) = (if a1ok env = true then 0 else 1) :=
  ⟨sendTrace_cnt465 rf se sp env, sendTrace_cnt587 rf se sp env⟩

/-- C4: when reading the report file raises, the function prints a
warning, composes the message without an attachment but with the
unchanged body, still opens its delivery attempt, and its boolean result
is exactly the delivery outcome — the read failure alone never makes it
return failure. -/
theorem attach_failure_nonfatal (rf se sp e : String) (env : Env)
    (h : env.readResult = .error e) :
    Event.print ("Warning: Could not attach file: " ++ e) ∈
      sendTrace rf se sp env ∧
    (composeMsg rf se env.date env.readResult).1.attachment = none ∧
    (composeMsg rf se env.date env.readResult).1.body =
      composeBody rf env.date ∧
    cnt465 (sendTrace rf se sp env) = 1 ∧
    sendOk rf se sp env = (a1ok env || a2ok env) := by
  refine ⟨?_, ?_, composeMsg_body rf se env.date env.readResult,
    sendTrace_cnt465 rf se sp env, sendOk_eq rf se sp env⟩
  · apply sendTrace_mem_compose
    rw [h]
    simp [composeMsg]
  · rw [h]
    rfl

/-- Witness for C4: a concrete run whose report file read is denied. -/
theorem attach_failure_nonfatal_witness :
    envReadErr.readResult = Except.error "denied" ∧
    (Event.print ("Warning: Could not attach file: " ++ "denied") ∈
      sendTrace "report.md" "bot@gmail.com" "pw" envReadErr ∧
     (composeMsg "report.md" "bot@gmail.com" envReadErr.date
        envReadErr.readResult).1.attachment = none ∧
     (composeMsg "report.md" "bot@gmail.com" envReadErr.date
        envReadErr.readResult).1.body =
       composeBody "report.md" envReadErr.date ∧
     cnt465 (sendTrace "report.md" "bot@gmail.com" "pw" envReadErr) = 1 ∧
     sendOk "report.md" "bot@gmail.com" "pw" envReadErr =
       (a1ok envReadErr || a2ok envReadErr)) :=
  ⟨rfl, attach_failure_nonfatal "report.md" "bot@gmail.com" "pw" "denied"
    envReadErr rfl⟩

/-- C5: the subject contains the current date as four-digit year,
two-digit month, two-digit day without separators; the body contains the
report path's base filename and the current date hyphen-separated; and
both strings depend only on the path and the date (not on the sender
address or the read outcome). -/
theorem subject_body_embed_date_and_basename (rf se : String) (d : Date)
    (rr : Except String (List Nat)) :
    (∃ a b, (composeMsg rf se d rr).1.subject =
      a ++ fmtYmdCompact d ++ b) ∧
    (∃ a b, (composeMsg rf se d rr).1.body = a ++ basename rf ++ b) ∧
    (∃ a b, (composeMsg rf se d rr).1.body = a ++ fmtYmdDashed d ++ b) ∧
    (∀ se2 rr2, (composeMsg rf se2 d rr2).1.subject =
        (composeMsg rf se d rr).1.subject ∧
      (composeMsg rf se2 d rr2).1.body = (composeMsg rf se d rr).1.body) := by
  refine ⟨⟨"🎤 Voice Effect Discovery Report - ", "", ?_⟩,
          ⟨bodyPre, bodyMid ++ fmtYmdDashed d ++ bodyTail, ?_⟩,
          ⟨bodyPre ++ basename rf ++ bodyMid, bodyTail, ?_⟩, ?_⟩
  · rw [composeMsg_subject, String.append_empty]
    rfl
  · rw [composeMsg_body]
    simp [composeBody, String.append_assoc]
  · rw [composeMsg_body]
    simp [composeBody, String.append_assoc]
  · intro se2 rr2
    exact ⟨by rw [composeMsg_subject, composeMsg_subject],
           by rw [composeMsg_body, composeMsg_body]⟩

/-- C6: the recipient header is the hardcoded address for every input,
two invocations with different arguments carry the same recipient, and
every connection event of a run targets the fixed relay hostname. -/
theorem recipient_and_relay_fixed (rf se sp rf2 se2 : String)
    (env env2 : Env) :
    (composeMsg rf se env.date env.readResult).1.toH =
      "yahalom.assets@gmail.com" ∧
    (composeMsg rf2 se2 env2.date env2.readResult).1.toH =
      (composeMsg rf se env.date env.readResult).1.toH ∧
    (sendTrace rf se sp env).all hostOkB = true := by
  refine ⟨composeMsg_toH rf se env.date env.readResult, ?_, ?_⟩
  · rw [composeMsg_toH, composeMsg_toH]
  · exact sendTrace_all rf se sp env hostOkB (fun x => rfl) rfl rfl rfl rfl
      rfl rfl

/-- C7: every message transmission in a run carries exactly the one
message composed from the inputs — so the message attempt 2 transmits is
identical to the one attempt 1 transmitted or tried to — and the message
is transmitted at most twice. -/
theorem message_immutable_across_attempts (rf se sp : String) (env : Env) :
    (sendTrace rf se sp env).all
      (msgOkB (composeMsg rf se env.date env.readResult).1) = true ∧
    cntSend (sendTrace rf se sp env) ≤ 2 := by
  refine ⟨?_, sendTrace_cntSend_le rf se sp env⟩
  exact sendTrace_all rf se sp env _ (fun x => rfl) rfl rfl rfl rfl
    (by simp [msgOkB]) rfl

/-- C8: `send_discovery_email` is total over attachment and delivery
errors: whatever raises in the file read or in either attempt's steps,
the function returns a boolean and never lets the exception escape. -/
theorem send_discovery_email_total (rf se sp : String) (env : Env) :
    (send_discovery_email rf se sp env).isOk = true := by
  unfold send_discovery_email
  cases h1 : attempt1 env.a1connect env.a1login env.a1send env.a1quit se sp
      (composeMsg rf se env.date env.readResult).1
      (composeMsg rf se env.date env.readResult).2 with
  | ok tr => rfl
  | error pr =>
    obtain ⟨e, tr⟩ := pr
    dsimp only
    cases h2 : attempt2 env.a2connect env.a2starttls env.a2login env.a2send
        env.a2quit se sp
        (composeMsg rf se env.date env.readResult).1
        (tr ++ [Event.print ("❌ Error sending email via SSL (port 465): " ++ e),
                Event.print "Trying STARTTLS (port 587)..."]) with
    | ok tr2 => rfl
    | error pr2 =>
      obtain ⟨e2, tr2⟩ := pr2
      rfl

/-- C9: an existing, readable, empty report file attaches cleanly: no
warning event, an attachment named by the base filename with empty
base64 payload, and composition otherwise identical to that of any
non-empty file. -/
theorem empty_report_attached_without_warning (rf se : String) (d : Date) :
    (composeMsg rf se d (.ok [])).2 = [] ∧
    (composeMsg rf se d (.ok [])).1.attachment =
      some (Attachment.mk (basename rf) "") ∧
    (∀ bs, (composeMsg rf se d (.ok bs)).1 =
      { (composeMsg rf se d (.ok [])).1 with
        attachment := some (Attachment.mk (basename rf) (base64Encode bs)) }) := by
  refine ⟨rfl, rfl, ?_⟩
  intro bs
  rfl

/-- C10: the password cannot influence anything but the login step: two
runs differing only in the password have the same boolean result,
transmit the same messages, and have identical traces once the password
field of login events is erased. -/
theorem password_noninterference (rf se p1 p2 : String) (env : Env) :
    sendOk rf se p1 env = sendOk rf se p2 env ∧
    sentMsgs (sendTrace rf se p1 env) = sentMsgs (sendTrace rf se p2 env) ∧
    (sendTrace rf se p1 env).map scrubPass =
      (sendTrace rf se p2 env).map scrubPass := by
  obtain ⟨hok, htr⟩ := send_scrub rf se p1 p2 env
  refine ⟨hok, ?_, htr⟩
  calc sentMsgs (sendTrace rf se p1 env)
      = sentMsgs ((sendTrace rf se p1 env).map scrubPass) :=
        (sentMsgs_scrub _).symm
    _ = sentMsgs ((sendTrace rf se p2 env).map scrubPass) := by rw [htr]
    _ = sentMsgs (sendTrace rf se p2 env) := sentMsgs_scrub _

end EzMiclink
